import Mathlib

/-!
Verification of the yacman configuration-store core.

The repository ships only the tests (src/tests/test_yacman.py,
src/locking_tests/test_locking.py) and the alias layer (src/yacman/alias.py);
the YacAttMap core (yacman.py) itself is absent.  The definitions below are
therefore a shallow embedding modelled from the specification (sections 3, 4
and 7 of spec.md), with sub-behaviours that the shipped tests pin down taken
from those tests.  The alias layer is translated directly from
src/yacman/alias.py.

The filesystem is modelled explicitly: a set of lock-marker paths plus a map
from file paths to parsed trees.  Every operation is a pure function from a
handle and a filesystem to a result, so a run of the single-process semantics
can be evaluated on concrete inputs.
-/

namespace Yacman

/-- A YAML-like value: scalar string, scalar integer, sequence, or nested
mapping (spec section 3, Config Tree). -/
inductive Value where
  | vstr : String → Value
  | vint : Int → Value
  | vlist : List Value → Value
  | vmap : List (String × Value) → Value

/-- The user-visible configuration tree: a mapping from string keys to
values. -/
abbrev Tree := List (String × Value)

/-- The kind of a value, used by the schema validator model. -/
inductive VKind where
  | str | int | list | map
deriving DecidableEq

/-- Kind of a concrete value. -/
def kindOf : Value → VKind
  | .vstr _ => .str
  | .vint _ => .int
  | .vlist _ => .list
  | .vmap _ => .map

/-- Modelled from the spec: the external schema validator collaborator
(validate(tree, schema) -> ok or error).  A schema is a list of key/kind
requirements; a tree validates when every listed key, if present, holds a
value of the required kind.  This matches the shape exercised by
src/tests/test_yacman.py TestValidation (a string-typed key, violated by
ints, lists and maps). -/
abbrev Schema := List (String × VKind)

/-- Modelled from the spec: schema validation of a tree. -/
def validateTree (t : Tree) (s : Schema) : Bool :=
  s.all fun kv =>
    match List.lookup kv.1 t with
    | none => true
    | some v => kindOf v == kv.2

/-- The filesystem state shared between processes: the set of existing lock
markers and the parsed content of each existing file. -/
structure FS where
  markers : List String
  files : List (String × Tree)

/-- Location of the lock marker for a target path: a fixed tag prepended to
the path (lock marker lives next to the target, spec section 3 and the
make_lock_path helper in src/tests/test_yacman.py). -/
def lockPath (p : String) : String :=
  "lock." ++ p

/-- Lock File Protocol: non-atomic existence probe for a marker. -/
def markerExists (fs : FS) (l : String) : Bool :=
  decide (l ∈ fs.markers)

/-- Lock File Protocol: unconditionally record a marker (used only after an
exclusive create succeeded). -/
def createMarker (fs : FS) (l : String) : FS :=
  { fs with markers := l :: fs.markers }

/-- Lock File Protocol: atomic create-exclusive of a marker.  Returns the new
filesystem when this call created the marker, and none when it already
existed; it never overwrites an existing marker. -/
def tryCreateMarker (fs : FS) (l : String) : Option FS :=
  if l ∈ fs.markers then none else some (createMarker fs l)

/-- Lock File Protocol: idempotent removal of a marker. -/
def removeMarker (fs : FS) (l : String) : FS :=
  { fs with markers := fs.markers.filter fun m => decide (m ≠ l) }

/-- Overwrite (or create) the file at path p with the serialized tree t.
Markers are untouched. -/
def writeFileFs (fs : FS) (p : String) (t : Tree) : FS :=
  { fs with files := (p, t) :: fs.files.filter fun kv => decide (kv.1 ≠ p) }

/-- Wait-Acquire Engine (spec section 4.2): poll tryCreateMarker until it
succeeds or the retry budget is exhausted.  The budget counts the extra polls
after the first attempt, so a budget of zero means exactly one attempt.  In
this single-process semantics no other process acts between polls, so the
filesystem seen by each poll is the same. -/
def waitAcquire (fs : FS) (l : String) : Nat → Option FS
  | 0 => tryCreateMarker fs l
  | n + 1 =>
    match tryCreateMarker fs l with
    | some fs1 => some fs1
    | none => waitAcquire fs l n

/-- While the marker exists and the holder does not release, every poll of
the engine fails, so any finite budget ends in a timeout. -/
theorem waitAcquire_none_of_held (fs : FS) (l : String) (hheld : l ∈ fs.markers) :
    ∀ n, waitAcquire fs l n = none := by
  intro n
  induction n with
  | zero => simp [waitAcquire, tryCreateMarker, hheld]
  | succ n ih => simp [waitAcquire, tryCreateMarker, hheld, ih]

/-- When the marker is free the very first poll creates it, whatever the
budget. -/
theorem waitAcquire_free (fs : FS) (l : String) (hfree : l ∉ fs.markers) :
    ∀ n, waitAcquire fs l n = some (createMarker fs l) := by
  intro n
  cases n with
  | zero => simp [waitAcquire, tryCreateMarker, hfree]
  | succ n => simp [waitAcquire, tryCreateMarker, hfree]

/-- The lock-marker location is injective in the target path. -/
theorem lockPath_inj {a b : String} (h : lockPath a = lockPath b) : a = b := by
  have hd : ("lock." ++ a).data = ("lock." ++ b).data := by
    unfold lockPath at h
    rw [h]
  simp only [String.data_append] at hd
  exact String.ext (List.append_cancel_left hd)

/-- Failure modes of the core (spec section 7) and of the alias layer
(src/yacman/alias.py, src/yacman/exceptions.py): acquisition timeout
(RuntimeError), missing path (TypeError), read-only or conflicting write
(OSError), schema mismatch (ValidationError), undefined alias mapping
(FileFormatError), unresolved alias (UndefinedAliasError). -/
inductive Err where
  | runtimeError
  | typeError
  | osError
  | validationError
  | fileFormatError
  | undefinedAliasError
deriving DecidableEq

/-- Modelled from the spec: the Config Handle (spec sections 3 and 4.4,
design note in section 9).  The Config Tree is a tagged structure: the
user-visible tree is one field, and the handle metadata (bound Target Path,
write-holding flag, schema and validation gate) are separate fields, never
stored among the user keys.  The write-holding flag is the negation of the
RO_KEY flag the tests read. -/
structure Handle where
  tree : Tree
  filepath : Option String
  writable : Bool
  schema : Option Schema
  writeValidate : Bool

/-- Insert or overwrite one key in a tree. -/
def treeSet (t : Tree) (k : String) (v : Value) : Tree :=
  (k, v) :: t.filter fun kv => decide (kv.1 ≠ k)

/-- Modelled from the spec: parse the target file (empty tree when the file
is absent) and apply the seed entries on top of it, as exercised by
src/tests/test_yacman.py test_on_init_file_update. -/
def loadTree (fs : FS) (p : String) (entries : Tree) : Tree :=
  entries.foldl (fun acc kv => treeSet acc kv.1 kv.2)
    ((List.lookup p fs.files).getD [])

/-- The constructor-time validation gate: when a schema is configured, the
parsed tree must validate, else construction fails (src/tests/test_yacman.py
TestValidation.test_validation_fails_in_constructor). -/
def checkSchema (h : Handle) (fs : FS) : Except Err (Handle × FS) :=
  match h.schema with
  | some s => if validateTree h.tree s then .ok (h, fs) else .error .validationError
  | none => .ok (h, fs)

/-- Modelled from the spec: construction of a YacAttMap handle (spec section
4.3, start rows).  With a path and writable=true the exclusive marker is
acquired (timeout is fatal and produces no handle); with a path, read mode
and read locking enabled the same marker is acquired and released immediately
after the parse; with read locking skipped the file is parsed directly; with
no path the handle is built from the entries alone in no-path state. -/
def mkYacAttMap (entries : Tree) (filepath : Option String) (writable : Bool)
    (waitMax : Nat) (skipReadLock : Bool) (schema : Option Schema)
    (writeValidate : Bool) (fs : FS) : Except Err (Handle × FS) :=
  match filepath with
  | none => checkSchema ⟨entries, none, false, schema, writeValidate⟩ fs
  | some p =>
    if writable then
      match waitAcquire fs (lockPath p) waitMax with
      | none => .error .runtimeError
      | some fs1 =>
        checkSchema ⟨loadTree fs1 p entries, some p, true, schema, writeValidate⟩ fs1
    else if skipReadLock then
      checkSchema ⟨loadTree fs p entries, some p, false, schema, writeValidate⟩ fs
    else
      match waitAcquire fs (lockPath p) waitMax with
      | none => .error .runtimeError
      | some fs1 =>
        checkSchema ⟨loadTree fs1 p entries, some p, false, schema, writeValidate⟩
          (removeMarker fs1 (lockPath p))

/-- Modelled from the spec: make_writable (spec section 4.3).  Resolves the
destination (argument, else bound path; none is a fatal TypeError); a handle
already write-holding for that same destination is a no-op; otherwise the
exclusive marker is acquired (timeout fatal, state unchanged), the previously
held marker, if bound to a different path, is released only after the new one
is held, the tree is re-parsed from disk (kept as is when the destination
file does not exist yet), and the handle becomes write-holding for the
destination. -/
def makeWritable (h : Handle) (pArg : Option String) (waitMax : Nat) (fs : FS) :
    Except Err (Handle × FS) :=
  match (match pArg with | some q => some q | none => h.filepath) with
  | none => .error .typeError
  | some p =>
    if h.writable = true ∧ h.filepath = some p then .ok (h, fs)
    else
      match waitAcquire fs (lockPath p) waitMax with
      | none => .error .runtimeError
      | some fs1 =>
        let fs2 :=
          match h.filepath with
          | some old =>
            if h.writable = true ∧ old ≠ p then removeMarker fs1 (lockPath old) else fs1
          | none => fs1
        let t :=
          match List.lookup p fs2.files with
          | some td => td
          | none => h.tree
        .ok ({ h with tree := t, filepath := some p, writable := true }, fs2)

/-- make_readonly: with no bound path it is a fatal TypeError
(src/tests/test_yacman.py test_unlock_errors_when_no_filepath_provided and
spec section 7, Unlock-without-path); a write-holding handle releases its
marker, flips to read-unlocked and reports true; a read-unlocked handle is a
no-op reporting false. -/
def makeReadonly (h : Handle) (fs : FS) : Except Err (Handle × FS × Bool) :=
  match h.filepath with
  | none => .error .typeError
  | some p =>
    if h.writable then
      .ok ({ h with writable := false }, removeMarker fs (lockPath p), true)
    else
      .ok (h, fs, false)

/-- The write-time validation gate: passes unless write_validate is enabled,
a schema is configured and the tree violates it (spec section 4.4). -/
def validationPasses (h : Handle) : Bool :=
  if h.writeValidate then
    match h.schema with
    | some s => validateTree h.tree s
    | none => true
  else true

/-- Core of write once a destination path is resolved.  Writing to the bound
path requires write-holding: a read-only handle writing its own bound path is
a hard OSError (src/tests/test_yacman.py test_cant_write_ro_mode).  Writing
to a destination different from the bound path is the backward-compatible
warning path (spec sections 4.4 and 7; src/tests/test_yacman.py
test_warn_on_write_when_not_locked, test_write_creates_file): the write
proceeds with a warning, the destination marker is created when free, a
marker previously held on the old bound path is released, and the handle is
re-bound write-holding for the destination.  The Bool in the result reports
whether a warning was emitted. -/
def writeCore (h : Handle) (p : String) (fs : FS) : Except Err (Handle × FS × Bool) :=
  if h.filepath = some p then
    if h.writable then .ok (h, writeFileFs fs p h.tree, false)
    else .error .osError
  else
    let conflict := markerExists fs (lockPath p)
    let fs1 := if conflict then fs else createMarker fs (lockPath p)
    let fs2 :=
      match h.filepath with
      | some old => if h.writable then removeMarker fs1 (lockPath old) else fs1
      | none => fs1
    .ok ({ h with filepath := some p, writable := !conflict },
      writeFileFs fs2 p h.tree, true)

/-- Modelled from the spec: write (spec section 4.4).  Resolves the
destination (argument, else bound path; none is a fatal TypeError with
nothing written); a failing validation gate aborts the call with nothing
written and the tree unchanged; otherwise writeCore runs. -/
def write (h : Handle) (pArg : Option String) (fs : FS) :
    Except Err (Handle × FS × Bool) :=
  match (match pArg with | some q => some q | none => h.filepath) with
  | none => .error .typeError
  | some p =>
    if validationPasses h then writeCore h p fs else .error .validationError

/-- Entering the scoped-use pattern.  The shipped tests pin promote-on-enter:
src/tests/test_yacman.py test_context_manager_saves_updates (state False)
persists the edits of a handle constructed read-only, which
test_cant_write_ro_mode forbids doing without write-holding, so entering
promotes a read-only handle through make_writable (acquiring the marker and
re-reading the file) and records that the handle entered read-only so exit
can restore that state; an already write-holding handle enters unchanged.
A read-only handle with no bound path fails here with the TypeError of
test_context_errors_with_objects_created_from_entries.  The Bool in the
result is the saved entered-read-only flag. -/
def enterScope (h : Handle) (waitMax : Nat) (fs : FS) :
    Except Err (Handle × FS × Bool) :=
  if h.writable then .ok (h, fs, false)
  else
    match makeWritable h none waitMax fs with
    | .ok (h1, fs1) => .ok (h1, fs1, true)
    | .error e => .error e

/-- Normal exit from the scoped-use pattern: persist the accumulated
mutations through write() with no path argument (so a handle with no bound
path fails with the TypeError), then restore the entry state: when enterScope
promoted the handle (saved flag true) demote it back through make_readonly,
releasing the marker; a handle that entered write-holding stays
write-holding.  Pinned by src/tests/test_yacman.py
test_context_manager_saves_updates and
test_context_manager_does_not_change_state. -/
def exitScope (h : Handle) (wasRO : Bool) (fs : FS) : Except Err (Handle × FS) :=
  match write h none fs with
  | .error e => .error e
  | .ok (h1, fs1, _) =>
    if wasRO then
      match makeReadonly h1 fs1 with
      | .ok (h2, fs2, _) => .ok (h2, fs2)
      | .error e => .error e
    else .ok (h1, fs1)

/-- User-facing iteration over a handle: the keys of the user tree only
(spec section 3 invariant and section 9 design note). -/
def userKeys (h : Handle) : List String :=
  h.tree.map fun kv => kv.1

/-- User-facing key lookup over a handle: the user tree only. -/
def userLookup (h : Handle) (k : String) : Option Value :=
  List.lookup k h.tree

/-- User-facing equality of handles: equality of the user trees; the
metadata fields take no part in it. -/
def userEq (h1 h2 : Handle) : Prop :=
  h1.tree = h2.tree

/-- An AliasedYacAttMap: a YacAttMap handle together with the optional alias
mapping the constructor stores (src/yacman/alias.py, lines 37-53). -/
structure AliasedYacAttMap where
  base : Handle
  aliases : Option (List (String × String))

/-- The loop body of get_alias (src/yacman/alias.py, lines 98-100): walk the
alias mapping in order and return the first key whose value equals the
argument; fall through to UndefinedAliasError. -/
def findAliasKey : List (String × String) → String → Except Err String
  | [], _ => .error .undefinedAliasError
  | (k, v) :: rest, key => if v = key then .ok k else findAliasKey rest key

/-- get_alias (src/yacman/alias.py, lines 85-101): FileFormatError when no
alias mapping is defined, else the reverse lookup over the mapping. -/
def get_alias (m : AliasedYacAttMap) (key : String) : Except Err String :=
  match m.aliases with
  | none => .error .fileFormatError
  | some d => findAliasKey d key

/-- Claim C1: while a lock marker is held for a target path, any construction
for that path that uses locking (writable, or read mode without
skip_read_lock) and a finite wait budget fails with the fatal runtime error
and produces no handle, and a bare acquire attempt for the same marker times
out. -/
theorem construct_times_out_while_held
    (fs : FS) (p : String) (entries : Tree) (writable skipRL : Bool)
    (waitMax : Nat) (schema : Option Schema) (wv : Bool)
    (hheld : lockPath p ∈ fs.markers)
    (hlock : writable = true ∨ skipRL = false) :
    mkYacAttMap entries (some p) writable waitMax skipRL schema wv fs =
      .error .runtimeError ∧
    waitAcquire fs (lockPath p) waitMax = none := by
  have hwa := waitAcquire_none_of_held fs (lockPath p) hheld waitMax
  refine ⟨?_, hwa⟩
  cases writable with
  | true => simp [mkYacAttMap, hwa]
  | false =>
    have hs : skipRL = false := by
      rcases hlock with h | h
      · exact absurd h (by simp)
      · exact h
    simp [mkYacAttMap, hs, hwa]

theorem construct_times_out_while_held_witness :
    mkYacAttMap [] (some "a.yaml") false 5 false none false
        ⟨[lockPath "a.yaml"], []⟩ = .error .runtimeError ∧
    waitAcquire ⟨[lockPath "a.yaml"], []⟩ (lockPath "a.yaml") 5 = none :=
  construct_times_out_while_held ⟨[lockPath "a.yaml"], []⟩ "a.yaml" [] false false
    5 none false (by simp) (Or.inr rfl)

/-- Claim C2: promoting a read-only bound handle to writable re-parses the
backing file from disk, so the promoted handle observes the committed
on-disk tree whatever its earlier in-memory tree held. -/
theorem make_writable_rereads_disk
    (h : Handle) (fs : FS) (p : String) (x : Tree) (waitMax : Nat)
    (hfp : h.filepath = some p) (hro : h.writable = false)
    (hfile : List.lookup p fs.files = some x)
    (hfree : lockPath p ∉ fs.markers) :
    makeWritable h none waitMax fs =
      .ok ({ h with tree := x, writable := true, filepath := some p },
        createMarker fs (lockPath p)) := by
  simp only [makeWritable, hfp, hro, waitAcquire_free fs (lockPath p) hfree]
  simp [createMarker, hfile]

theorem make_writable_rereads_disk_witness :
    makeWritable ⟨[("k", Value.vint 0)], some "a.yaml", false, none, false⟩ none 3
        ⟨[], [("a.yaml", [("k", Value.vint 7)])]⟩ =
      .ok (⟨[("k", Value.vint 7)], some "a.yaml", true, none, false⟩,
        createMarker ⟨[], [("a.yaml", [("k", Value.vint 7)])]⟩ (lockPath "a.yaml")) :=
  make_writable_rereads_disk ⟨[("k", Value.vint 0)], some "a.yaml", false, none, false⟩
    ⟨[], [("a.yaml", [("k", Value.vint 7)])]⟩ "a.yaml" [("k", Value.vint 7)] 3
    rfl rfl rfl (by simp)

/-- Claim C8: a handle with no resolvable path fails write() and scoped-use
exit (whatever the saved entry flag) with the fatal TypeError, and scoped-use
entry of such a read-only handle fails with the same TypeError; the error
return means nothing is written (only a successful result carries a new
filesystem). -/
theorem nopath_write_and_exit_error (h : Handle) (fs : FS)
    (hfp : h.filepath = none) :
    write h none fs = .error .typeError ∧
    (∀ wasRO, exitScope h wasRO fs = .error .typeError) ∧
    (h.writable = false → ∀ waitMax, enterScope h waitMax fs = .error .typeError) := by
  have hwr : write h none fs = .error .typeError := by
    simp [write, hfp]
  refine ⟨hwr, ?_, ?_⟩
  · intro wasRO
    simp [exitScope, hwr]
  · intro hw waitMax
    simp [enterScope, hw, makeWritable, hfp]

theorem nopath_write_and_exit_error_witness :
    write ⟨[], none, false, none, false⟩ none ⟨[], []⟩ = .error .typeError ∧
    exitScope ⟨[], none, false, none, false⟩ true ⟨[], []⟩ = .error .typeError ∧
    enterScope ⟨[], none, false, none, false⟩ 1 ⟨[], []⟩ = .error .typeError :=
  ⟨(nopath_write_and_exit_error ⟨[], none, false, none, false⟩ ⟨[], []⟩ rfl).1,
   (nopath_write_and_exit_error ⟨[], none, false, none, false⟩ ⟨[], []⟩ rfl).2.1 true,
   (nopath_write_and_exit_error ⟨[], none, false, none, false⟩ ⟨[], []⟩ rfl).2.2 rfl 1⟩

/-- Claim C6 counterexample: on a no-path handle make_readonly is not the
claimed no-op returning false; it fails with the TypeError that
src/tests/test_yacman.py test_unlock_errors_when_no_filepath_provided and
spec section 7 (Unlock-without-path) demand. -/
theorem make_readonly_nopath_counterexample :
    makeReadonly ⟨[], none, false, none, false⟩ ⟨[], []⟩ = .error .typeError :=
  rfl

/-- Claim C6 amended: for a handle with a bound path, make_readonly returns
true exactly when a release actually occurred (the handle was write-holding;
its marker is removed and it moves to read-unlocked); in read-unlocked state
it is a no-op returning false, so the second of two consecutive calls on a
path-bound handle returns false; a handle with no bound path instead fails
with a TypeError. -/
theorem make_readonly_release_report (h : Handle) (fs : FS) (p : String)
    (hfp : h.filepath = some p) :
    (h.writable = true →
      makeReadonly h fs =
        .ok ({ h with writable := false }, removeMarker fs (lockPath p), true)) ∧
    (h.writable = false → makeReadonly h fs = .ok (h, fs, false)) ∧
    (∀ h2 fs2 b, makeReadonly h fs = .ok (h2, fs2, b) →
      makeReadonly h2 fs2 = .ok (h2, fs2, false)) ∧
    (∀ h0 : Handle, h0.filepath = none → makeReadonly h0 fs = .error .typeError) := by
  refine ⟨?_, ?_, ?_, ?_⟩
  · intro hw
    simp [makeReadonly, hfp, hw]
  · intro hw
    simp [makeReadonly, hfp, hw]
  · intro h2 fs2 b heq
    cases hw : h.writable with
    | true =>
      simp [makeReadonly, hfp, hw] at heq
      obtain ⟨hh, hf, _⟩ := heq
      subst hh
      subst hf
      simp [makeReadonly]
    | false =>
      simp [makeReadonly, hfp, hw] at heq
      obtain ⟨hh, hf, _⟩ := heq
      subst hh
      subst hf
      simp [makeReadonly, hfp, hw]
  · intro h0 h0fp
    simp [makeReadonly, h0fp]

theorem make_readonly_release_report_witness :
    makeReadonly ⟨[], some "a.yaml", true, none, false⟩ ⟨[lockPath "a.yaml"], []⟩ =
      .ok (⟨[], some "a.yaml", false, none, false⟩,
        removeMarker ⟨[lockPath "a.yaml"], []⟩ (lockPath "a.yaml"), true) :=
  (make_readonly_release_report ⟨[], some "a.yaml", true, none, false⟩
    ⟨[lockPath "a.yaml"], []⟩ "a.yaml" rfl).1 rfl

/-- When no entry of the alias mapping carries the requested value, the scan
falls through to UndefinedAliasError. -/
theorem findAliasKey_no_match (d : List (String × String)) (key : String)
    (hno : ∀ pr ∈ d, pr.2 ≠ key) :
    findAliasKey d key = .error .undefinedAliasError := by
  induction d with
  | nil => rfl
  | cons kv rest ih =>
    obtain ⟨k, v⟩ := kv
    have hv : v ≠ key := hno (k, v) (by simp)
    simp only [findAliasKey, if_neg hv]
    exact ih fun pr hpr => hno pr (by simp [hpr])

/-- Any key the scan returns comes from an entry whose value is the
requested one. -/
theorem findAliasKey_ok_mem (d : List (String × String)) (key k : String)
    (hok : findAliasKey d key = .ok k) : (k, key) ∈ d := by
  induction d with
  | nil => simp [findAliasKey] at hok
  | cons kv rest ih =>
    obtain ⟨k0, v0⟩ := kv
    by_cases hv : v0 = key
    · subst hv
      simp only [findAliasKey, eq_self_iff_true, if_true, Except.ok.injEq] at hok
      subst hok
      exact List.mem_cons_self _ _
    · simp only [findAliasKey, if_neg hv] at hok
      exact List.mem_cons_of_mem _ (ih hok)

/-- Claim C10: get_alias performs a reverse lookup over the alias mapping:
with no mapping defined it fails with FileFormatError; with a mapping in
which no entry has the argument as its value it fails with
UndefinedAliasError; and any key it returns is one whose entry in the
mapping has the argument as its value. -/
theorem get_alias_reverse_lookup (m : AliasedYacAttMap) (key : String) :
    (m.aliases = none → get_alias m key = .error .fileFormatError) ∧
    (∀ d, m.aliases = some d →
      ((∀ pr ∈ d, pr.2 ≠ key) →
        get_alias m key = .error .undefinedAliasError) ∧
      (∀ k, get_alias m key = .ok k → (k, key) ∈ d)) := by
  constructor
  · intro hn
    simp [get_alias, hn]
  · intro d hd
    constructor
    · intro hno
      simp [get_alias, hd, findAliasKey_no_match d key hno]
    · intro k hok
      simp only [get_alias, hd] at hok
      exact findAliasKey_ok_mem d key k hok

theorem get_alias_reverse_lookup_witness :
    ("hg38", "human") ∈ [("hg38", "human")] :=
  ((get_alias_reverse_lookup
      ⟨⟨[], none, false, none, false⟩, some [("hg38", "human")]⟩ "human").2
    [("hg38", "human")] rfl).2 "hg38" rfl

/-- Claim C3 counterexample: a read-only handle writing its own bound path is
a hard OSError (src/tests/test_yacman.py test_cant_write_ro_mode), not a
warning-only success. -/
theorem write_ro_bound_path_counterexample :
    write ⟨[], some "a.yaml", false, none, false⟩ (some "a.yaml") ⟨[], []⟩ =
      .error .osError :=
  rfl

/-- The warning branch of writeCore: with a destination that is not the
bound path the write always succeeds, reports the warning, lands the tree in
the destination file and re-binds the handle to the destination. -/
theorem writeCore_nonbound (h : Handle) (fs : FS) (p : String)
    (hdiff : h.filepath ≠ some p) :
    ∃ h1 fs1, writeCore h p fs = .ok (h1, fs1, true) ∧
      List.lookup p fs1.files = some h.tree ∧ h1.filepath = some p := by
  unfold writeCore
  rw [if_neg hdiff]
  exact ⟨_, _, rfl, by simp [writeFileFs, List.lookup], rfl⟩

/-- Claim C3 amended: writing to a destination different from the currently
bound path (including from a handle with no bound path) never hard-fails on
lock state: the write proceeds, emits the warning signal and lands the tree
in the destination file; but calling write on a read-only handle targeting
its own bound path is a hard OSError rather than a warning. -/
theorem write_nonholder_warns
    (h : Handle) (fs : FS) (p : String)
    (hdiff : h.filepath ≠ some p)
    (hval : validationPasses h = true) :
    (∃ h1 fs1, write h (some p) fs = .ok (h1, fs1, true) ∧
      List.lookup p fs1.files = some h.tree ∧ h1.filepath = some p) ∧
    (∀ h0 : Handle, h0.filepath = some p → h0.writable = false →
      validationPasses h0 = true → write h0 (some p) fs = .error .osError) := by
  constructor
  · have hred : write h (some p) fs = writeCore h p fs := by
      simp [write, hval]
    rw [hred]
    exact writeCore_nonbound h fs p hdiff
  · intro h0 hfp0 hw0 hv0
    simp [write, writeCore, hfp0, hw0, hv0]

theorem write_nonholder_warns_witness :
    ∃ h1 fs1,
      write ⟨[("k", Value.vint 1)], none, false, none, false⟩ (some "b.yaml")
          ⟨[], []⟩ = .ok (h1, fs1, true) ∧
      List.lookup "b.yaml" fs1.files = some [("k", Value.vint 1)] ∧
      h1.filepath = some "b.yaml" :=
  (write_nonholder_warns ⟨[("k", Value.vint 1)], none, false, none, false⟩
    ⟨[], []⟩ "b.yaml" (by simp) rfl).1

/-- Claim C4: a handle write-holding on old, promoted with make_writable to a
different free destination new, ends with no marker at old and exactly one
marker at new; the final filesystem is the removal of the old marker from the
intermediate state in which the new marker is already held alongside the old
one, so the old marker is released only after the new one is held. -/
theorem make_writable_moves_lock
    (h : Handle) (fs : FS) (oldP newP : String) (waitMax : Nat)
    (hfp : h.filepath = some oldP) (hw : h.writable = true)
    (hne : oldP ≠ newP)
    (hheld : lockPath oldP ∈ fs.markers)
    (hfree : lockPath newP ∉ fs.markers) :
    makeWritable h (some newP) waitMax fs =
      .ok ({ h with
              tree := (match List.lookup newP fs.files with
                       | some td => td
                       | none => h.tree),
              filepath := some newP,
              writable := true },
        removeMarker (createMarker fs (lockPath newP)) (lockPath oldP)) ∧
    lockPath oldP ∈ (createMarker fs (lockPath newP)).markers ∧
    lockPath oldP ∉
      (removeMarker (createMarker fs (lockPath newP)) (lockPath oldP)).markers ∧
    (removeMarker (createMarker fs (lockPath newP)) (lockPath oldP)).markers.count
      (lockPath newP) = 1 := by
  have hlne : lockPath newP ≠ lockPath oldP := fun he => hne (lockPath_inj he.symm)
  refine ⟨?_, List.mem_cons_of_mem _ hheld, ?_, ?_⟩
  · simp only [makeWritable, hfp, hw, waitAcquire_free fs (lockPath newP) hfree]
    simp [hne, removeMarker, createMarker]
  · simp [removeMarker, List.mem_filter]
  · simp only [removeMarker, createMarker]
    rw [List.filter_cons_of_pos (by simp [hlne]), List.count_cons_self]
    have hz : (fs.markers.filter fun m => decide (m ≠ lockPath oldP)).count
        (lockPath newP) = 0 :=
      List.count_eq_zero.mpr fun hmem => hfree (List.mem_of_mem_filter hmem)
    rw [hz]

theorem make_writable_moves_lock_witness :
    makeWritable ⟨[], some "a.yaml", true, none, false⟩ (some "b.yaml") 2
        ⟨[lockPath "a.yaml"], []⟩ =
      .ok (⟨[], some "b.yaml", true, none, false⟩,
        removeMarker (createMarker ⟨[lockPath "a.yaml"], []⟩ (lockPath "b.yaml"))
          (lockPath "a.yaml")) ∧
    lockPath "a.yaml" ∈
      (createMarker ⟨[lockPath "a.yaml"], []⟩ (lockPath "b.yaml")).markers ∧
    lockPath "a.yaml" ∉
      (removeMarker (createMarker ⟨[lockPath "a.yaml"], []⟩ (lockPath "b.yaml"))
        (lockPath "a.yaml")).markers ∧
    (removeMarker (createMarker ⟨[lockPath "a.yaml"], []⟩ (lockPath "b.yaml"))
      (lockPath "a.yaml")).markers.count (lockPath "b.yaml") = 1 :=
  make_writable_moves_lock ⟨[], some "a.yaml", true, none, false⟩
    ⟨[lockPath "a.yaml"], []⟩ "a.yaml" "b.yaml" 2 rfl rfl (by decide)
    (by simp) (by simp [lockPath])

/-- Scoped-use exit of a write-holding path-bound handle whose validation
gate passes: it always calls write(); with the saved flag clear it stays
write-holding, with the saved flag set it demotes afterwards, releasing the
marker. -/
theorem exitScope_writable (hb : Handle) (fs : FS) (p : String)
    (hbfp : hb.filepath = some p) (hbw : hb.writable = true)
    (hbv : validationPasses hb = true) :
    exitScope hb false fs = .ok (hb, writeFileFs fs p hb.tree) ∧
    exitScope hb true fs =
      .ok ({ hb with writable := false },
        removeMarker (writeFileFs fs p hb.tree) (lockPath p)) := by
  constructor
  · simp [exitScope, write, writeCore, hbfp, hbw, hbv]
  · simp [exitScope, write, writeCore, makeReadonly, hbfp, hbw, hbv]

/-- Claim C5 counterexample: entering the scope with a read-only path-bound
handle acquires the lock marker (the marker set grows from empty) and flips
the handle to write-holding, so entering is not lock-neutral and exit is not
reached in the state the claim assumes; this is what the cited test
test_context_manager_saves_updates (state False) requires, given that
test_cant_write_ro_mode forbids a read-only write of the bound path. -/
theorem scope_enter_acquires_counterexample :
    enterScope ⟨[("k", Value.vint 1)], some "a.yaml", false, none, false⟩ 1
        ⟨[], [("a.yaml", [])]⟩ =
      .ok (⟨[], some "a.yaml", true, none, false⟩,
        createMarker ⟨[], [("a.yaml", [])]⟩ (lockPath "a.yaml"), true) ∧
    (createMarker ⟨[], [("a.yaml", [])]⟩ (lockPath "a.yaml")).markers ≠
      ([] : List String) :=
  ⟨rfl, by simp [createMarker]⟩

/-- Claim C5 amended: for a handle with a bound path, the scoped use()
pattern persists accumulated mutations on every normal exit, not only for
write-holding handles: an already write-holding handle enters unchanged and
exits through write() still holding the marker; a read-only handle is
promoted on entry (acquiring the marker, saving the prior state) and on exit
write() runs and the saved state is restored, demoting and releasing the
marker, so the whole scope leaves the access state and the marker set as
they were. -/
theorem scope_promotes_and_restores
    (h : Handle) (fs : FS) (p : String) (waitMax : Nat)
    (hfp : h.filepath = some p) :
    (h.writable = true → enterScope h waitMax fs = .ok (h, fs, false)) ∧
    (∀ hb : Handle, hb.filepath = some p → hb.writable = true →
      validationPasses hb = true →
      exitScope hb false fs = .ok (hb, writeFileFs fs p hb.tree) ∧
      exitScope hb true fs =
        .ok ({ hb with writable := false },
          removeMarker (writeFileFs fs p hb.tree) (lockPath p))) ∧
    (h.writable = false → h.schema = none → lockPath p ∉ fs.markers →
      ∃ h1 h2 fs2,
        enterScope h waitMax fs = .ok (h1, createMarker fs (lockPath p), true) ∧
        h1.writable = true ∧ h1.filepath = some p ∧
        exitScope h1 true (createMarker fs (lockPath p)) = .ok (h2, fs2) ∧
        h2.writable = false ∧ h2.filepath = some p ∧
        fs2.markers = fs.markers ∧
        List.lookup p fs2.files = some h1.tree) := by
  refine ⟨?_, ?_, ?_⟩
  · intro hw
    simp [enterScope, hw]
  · intro hb hbfp hbw hbv
    exact exitScope_writable hb fs p hbfp hbw hbv
  · intro hw hsch hfree
    have henter : enterScope h waitMax fs =
        .ok ({ h with
                tree := (match List.lookup p fs.files with
                         | some td => td
                         | none => h.tree),
                filepath := some p, writable := true },
          createMarker fs (lockPath p), true) := by
      simp only [enterScope, hw, Bool.false_eq_true, if_false]
      simp only [makeWritable, hfp, waitAcquire_free fs (lockPath p) hfree]
      simp [hw, createMarker]
    have hexit := (exitScope_writable
        { h with
            tree := (match List.lookup p fs.files with
                     | some td => td
                     | none => h.tree),
            filepath := some p, writable := true }
        (createMarker fs (lockPath p)) p rfl rfl
        (by simp [validationPasses, hsch])).2
    refine ⟨_, _, _, henter, rfl, rfl, hexit, rfl, rfl, ?_, ?_⟩
    · show List.filter (fun m => decide (m ≠ lockPath p))
          (lockPath p :: fs.markers) = fs.markers
      rw [List.filter_cons_of_neg (by simp)]
      exact List.filter_eq_self.mpr fun a ha => by
        simp only [decide_eq_true_eq]
        intro he
        exact hfree (he ▸ ha)
    · simp [removeMarker, writeFileFs, List.lookup]

theorem scope_promotes_and_restores_witness :
    ∃ h1 h2 fs2,
      enterScope ⟨[("k", Value.vint 1)], some "b.yaml", false, none, false⟩ 1
          ⟨[], [("b.yaml", [("k", Value.vint 7)])]⟩ =
        .ok (h1, createMarker ⟨[], [("b.yaml", [("k", Value.vint 7)])]⟩
          (lockPath "b.yaml"), true) ∧
      h1.writable = true ∧ h1.filepath = some "b.yaml" ∧
      exitScope h1 true (createMarker ⟨[], [("b.yaml", [("k", Value.vint 7)])]⟩
          (lockPath "b.yaml")) = .ok (h2, fs2) ∧
      h2.writable = false ∧ h2.filepath = some "b.yaml" ∧
      fs2.markers = (⟨[], [("b.yaml", [("k", Value.vint 7)])]⟩ : FS).markers ∧
      List.lookup "b.yaml" fs2.files = some h1.tree :=
  (scope_promotes_and_restores
    ⟨[("k", Value.vint 1)], some "b.yaml", false, none, false⟩
    ⟨[], [("b.yaml", [("k", Value.vint 7)])]⟩ "b.yaml" 1 rfl).2.2 rfl rfl (by simp)

/-- Claim C7: the user-facing views of a Config Handle -- iteration over the
keys, key lookup and equality -- are functions of the user tree alone: the
reserved metadata (bound path, write-holding flag, schema and validation
gate, and the alias mapping of the aliased variant) is held outside the user
tree and never appears in nor influences any of them. -/
theorem views_never_expose_metadata
    (h1 h2 : Handle) (htree : h1.tree = h2.tree)
    (a1 a2 : Option (List (String × String))) :
    userKeys h1 = userKeys h2 ∧
    (∀ k, userLookup h1 k = userLookup h2 k) ∧
    userEq h1 h2 ∧
    userKeys (AliasedYacAttMap.mk h1 a1).base =
      userKeys (AliasedYacAttMap.mk h2 a2).base := by
  refine ⟨?_, ?_, htree, ?_⟩ <;> simp [userKeys, userLookup, userEq, htree]

theorem views_never_expose_metadata_witness :
    userKeys ⟨[("x", Value.vint 1)], some "a.yaml", true,
        some [("x", VKind.int)], true⟩ =
      userKeys ⟨[("x", Value.vint 1)], none, false, none, false⟩ ∧
    (∀ k, userLookup ⟨[("x", Value.vint 1)], some "a.yaml", true,
        some [("x", VKind.int)], true⟩ k =
      userLookup ⟨[("x", Value.vint 1)], none, false, none, false⟩ k) ∧
    userEq ⟨[("x", Value.vint 1)], some "a.yaml", true,
        some [("x", VKind.int)], true⟩
      ⟨[("x", Value.vint 1)], none, false, none, false⟩ ∧
    userKeys (AliasedYacAttMap.mk ⟨[("x", Value.vint 1)], some "a.yaml", true,
        some [("x", VKind.int)], true⟩ (some [("hg38", "human")])).base =
      userKeys (AliasedYacAttMap.mk
        ⟨[("x", Value.vint 1)], none, false, none, false⟩ none).base :=
  views_never_expose_metadata
    ⟨[("x", Value.vint 1)], some "a.yaml", true, some [("x", VKind.int)], true⟩
    ⟨[("x", Value.vint 1)], none, false, none, false⟩ rfl
    (some [("hg38", "human")]) none

/-- Claim C9: with a schema configured and write_validate enabled, a
violating tree makes write() fail with the validation error (the error
return carries no new filesystem, so the target file is untouched and the
in-memory tree unchanged), and once the violating value is fixed the same
write() succeeds and lands the repaired tree in the file. -/
theorem write_validate_gate
    (h : Handle) (fs : FS) (s : Schema) (p : String)
    (hfp : h.filepath = some p) (hs : h.schema = some s)
    (hwv : h.writeValidate = true) :
    (validateTree h.tree s = false → write h none fs = .error .validationError) ∧
    (∀ t1, validateTree t1 s = true → h.writable = true →
      write { h with tree := t1 } none fs =
        .ok ({ h with tree := t1 }, writeFileFs fs p t1, false)) := by
  constructor
  · intro hbad
    simp [write, validationPasses, hfp, hs, hwv, hbad]
  · intro t1 hgood hw
    simp [write, validationPasses, writeCore, hfp, hs, hwv, hgood, hw]

theorem write_validate_gate_witness :
    write ⟨[("testattr", Value.vint 1)], some "c.yaml", true,
        some [("testattr", VKind.str)], true⟩ none ⟨[lockPath "c.yaml"], []⟩ =
      .error .validationError ∧
    write ⟨[("testattr", Value.vstr "ok")], some "c.yaml", true,
        some [("testattr", VKind.str)], true⟩ none ⟨[lockPath "c.yaml"], []⟩ =
      .ok (⟨[("testattr", Value.vstr "ok")], some "c.yaml", true,
          some [("testattr", VKind.str)], true⟩,
        writeFileFs ⟨[lockPath "c.yaml"], []⟩ "c.yaml"
          [("testattr", Value.vstr "ok")], false) :=
  ⟨(write_validate_gate ⟨[("testattr", Value.vint 1)], some "c.yaml", true,
      some [("testattr", VKind.str)], true⟩ ⟨[lockPath "c.yaml"], []⟩
      [("testattr", VKind.str)] "c.yaml" rfl rfl rfl).1 rfl,
   (write_validate_gate ⟨[("testattr", Value.vint 1)], some "c.yaml", true,
      some [("testattr", VKind.str)], true⟩ ⟨[lockPath "c.yaml"], []⟩
      [("testattr", VKind.str)] "c.yaml" rfl rfl rfl).2
     [("testattr", Value.vstr "ok")] rfl rfl⟩

end Yacman
